import Mathlib

/-!
Shallow embedding of the Material-Pegging Excel→MemSQL loader
(`Material pegging to memsql.py`): normalization helpers, extraction,
table schemas as row structures, the per-entity batch upserts, the
connector's batch-error behaviour and the `main` orchestration, together
with proofs settling the specification claims about them.

Conventions of the embedding:
* Spreadsheet cell values are `Value`: a Python `None`, a float NaN, or a
  string (`str(v)` of whatever pandas produced).
* Python floats are modelled as `PyFloat` (exact rationals plus the
  special values); `float(s)` is `pyFloatParse`, which accepts sign,
  digits, decimal point, exponent and inf/infinity/nan, skipping
  surrounding whitespace exactly as Python `float` does.
* Database tables are lists of row structures; `INSERT ... ON DUPLICATE
  KEY UPDATE` is `upsertOne`/`upsertMany`, which updates the first row
  clashing on a unique key and otherwise appends; the plain `INSERT` of
  `bom_hierarchy` is list append.
* Timestamps (`CURRENT_TIMESTAMP`) are abstract `Nat` clock values passed
  to each batch operation.
-/

namespace Repogen

/-- A cell/record value as seen from Python: `None`, float NaN, or a
string (the result of `str(...)` on the raw value). -/
inductive Value where
  | vNone
  | vNaN
  | vStr (s : String)
deriving DecidableEq, Repr

/-- Embeds `pd.isna`: true on `None` and NaN, false on strings. -/
def pdIsna : Value → Bool
  | .vNone => true
  | .vNaN => true
  | .vStr _ => false

/-- Python `str(...)` on a `Value`. -/
def pyStr : Value → String
  | .vNone => "None"
  | .vNaN => "nan"
  | .vStr s => s

/-- Drop leading and trailing characters satisfying `Char.isWhitespace`:
Python `str.strip()` at the character-list level. -/
def stripList (l : List Char) : List Char :=
  ((l.dropWhile Char.isWhitespace).reverse.dropWhile Char.isWhitespace).reverse

/-- Python `str.strip()`. -/
def pyStrip (s : String) : String :=
  String.mk (stripList s.data)

/-- ASCII lowercase conversion of one character. -/
def lowerChar (c : Char) : Char :=
  if 'A' ≤ c ∧ c ≤ 'Z' then Char.ofNat (c.toNat + 32) else c

/-- Value of a list of decimal digits. -/
def digitsVal (l : List Char) : Nat :=
  l.foldl (fun a c => a * 10 + (c.toNat - 48)) 0

/-- A Python float: an exact rational, ±infinity, or NaN. -/
inductive PyFloat where
  | rat (q : ℚ)
  | inf
  | negInf
  | nanv
deriving DecidableEq, Repr

/-- Optional exponent part of a float literal (`e`/`E` already
lowercased): `[]` means exponent 0. -/
def parseExp (cs : List Char) : Option Int :=
  match cs with
  | [] => some 0
  | 'e' :: rest =>
    let (neg, ds) :=
      match rest with
      | '+' :: r => (false, r)
      | '-' :: r => (true, r)
      | r => (false, r)
    let digs := ds.takeWhile Char.isDigit
    let rem := ds.dropWhile Char.isDigit
    if digs.isEmpty || !rem.isEmpty then none
    else some (if neg then -(digitsVal digs : Int) else (digitsVal digs : Int))
  | _ => none

/-- Exact value of `mant / 10^fracLen * 10^e` as a rational, using only
kernel-reducible `Nat` arithmetic and `mkRat`. -/
def decValue (mant fracLen : Nat) (e : Int) : ℚ :=
  if 0 ≤ e then mkRat (mant * 10 ^ e.toNat) (10 ^ fracLen)
  else mkRat mant (10 ^ fracLen * 10 ^ e.natAbs)

/-- Unsigned magnitude of a float literal: digits, optional fraction,
optional exponent. -/
def parseMag (cs : List Char) : Option ℚ :=
  let ip := cs.takeWhile Char.isDigit
  let r1 := cs.dropWhile Char.isDigit
  match r1 with
  | '.' :: r2 =>
    let fp := r2.takeWhile Char.isDigit
    let r3 := r2.dropWhile Char.isDigit
    if ip.isEmpty && fp.isEmpty then none
    else
      match parseExp r3 with
      | some e => some (decValue (digitsVal ip * 10 ^ fp.length + digitsVal fp) fp.length e)
      | none => none
  | _ =>
    if ip.isEmpty then none
    else
      match parseExp r1 with
      | some e => some (decValue (digitsVal ip) 0 e)
      | none => none

/-- Python `float(s)` on a string: skips surrounding whitespace, accepts
an optional sign, digits with optional decimal point and exponent, and
the literals inf/infinity/nan case-insensitively. -/
def pyFloatParse (s : String) : Option PyFloat :=
  let cs0 := (stripList s.data).map lowerChar
  let (neg, cs) :=
    match cs0 with
    | '+' :: r => (false, r)
    | '-' :: r => (true, r)
    | r => (false, r)
  if cs = "inf".data || cs = "infinity".data then
    some (if neg then PyFloat.negInf else PyFloat.inf)
  else if cs = "nan".data then some PyFloat.nanv
  else
    match parseMag cs with
    | some q => some (PyFloat.rat (if neg then -q else q))
    | none => none

/-- Python `float(v)` on a `Value`: `float(None)` raises (no result),
`float(nan)` is NaN, strings are parsed. -/
def pyFloatOf : Value → Option PyFloat
  | .vNone => none
  | .vNaN => some PyFloat.nanv
  | .vStr s => pyFloatParse s

/-- Python `f > 0` on the result of a conversion that may have failed:
failure and NaN compare false, `inf > 0` is true. -/
def pyGtZero : Option PyFloat → Bool
  | some (.rat q) => decide (0 < q)
  | some .inf => true
  | _ => false

/-- Truth of `0 ≤ f` for a stored quantity. -/
def PyFloat.nonneg : PyFloat → Bool
  | .rat q => decide (0 ≤ q)
  | .inf => true
  | .negInf => false
  | .nanv => false

/-- Embeds `normalize_text`: `None` on null/NaN, otherwise strip and collapse
whitespace runs to single spaces; empty result becomes `None`. -/
def normalize_text (v : Value) : Option String :=
  if pdIsna v then none
  else
    let t := stripList (pyStr v).data
    let words := (List.splitOnP (fun c => c.isWhitespace) t).filter (fun w => !w.isEmpty)
    let res := List.intercalate [' '] words
    if res.isEmpty then none else some (String.mk res)

/-- Embeds `normalize_product_no`: `None` on null/NaN, otherwise keep only ASCII
letters and digits of the stripped string; empty result becomes `None`. -/
def normalize_product_no (v : Value) : Option String :=
  if pdIsna v then none
  else
    let t := stripList (pyStr v).data
    let cleaned := t.filter Char.isAlphanum
    if cleaned.isEmpty then none else some (String.mk cleaned)

/-- Embeds `extract_model_components`: `None` on null/NaN, otherwise split on
runs of underscores, strip each component, drop empties, rejoin with
single underscores. -/
def extract_model_components (v : Value) : Option String :=
  if pdIsna v then none
  else
    let t := stripList (pyStr v).data
    let comps := ((List.splitOnP (fun c => c = '_') t).map stripList).filter (fun w => !w.isEmpty)
    some (String.mk (List.intercalate ['_'] comps))

/-- Embeds `is_valid_qty`: false on null/NaN; false when the stripped string
form is empty, `"0"` or `"nan"`; otherwise `float(qty_str) > 0` (parse
failure is false).  The source parses the stripped string; `pyFloatParse`
skips surrounding whitespace exactly as Python `float` does, so parsing
the unstripped value is the same function of the input. -/
def is_valid_qty (qty : Value) : Bool :=
  if pdIsna qty then false
  else
    let qtyStr := stripList (pyStr qty).data
    if qtyStr.isEmpty || qtyStr = ['0'] || qtyStr = "nan".data then false
    else pyGtZero (pyFloatOf qty)

/- ===================== Extraction (`load_excel_data`) =====================
The fixed-offset pandas reads are modelled by passing the relevant cells
of each band directly; the quantity matrix and `qty_col_map` are carried
through untouched by the source and play no role in the claims. -/

/-- One product column of the DP-Shortage header band: the cells of
pandas rows 0 (batch size), 1 (product number) and 3 (description), and
the absolute column index. -/
structure HeaderCol where
  batchCell : Value
  idCell : Value
  descCell : Value
  colIdx : Nat
deriving DecidableEq, Repr

/-- The per-product header record built by `load_excel_data`. -/
structure HeaderInfo where
  Product_ID : String
  Product_Description : Option String
  Batch_Size : Value
  Column_Index : Nat
deriving DecidableEq, Repr

/-- One row of the materials band (columns 0-5, 10, 13). -/
structure MatRawRow where
  Material : Value
  Material_Description : Value
  Model : Value
  Product_Family : Value
  Section : Value
  Common_Unique : Value
  Total_Lead_Time : Value
  BUoM : Value
deriving DecidableEq, Repr

/-- One row of the SNP "Adv Mkt" sheet (columns 1, 3, 5, 8). -/
structure AdvRow where
  Product_ID : Value
  SKU : Value
  Country : Value
  Pack_Size : Value
deriving DecidableEq, Repr

/-- One row of the SNP "DP Line Utilization" sheet (columns 1, 2, 4). -/
structure ResRow where
  Resource_ID : Value
  Resource_Description : Value
  Product_ID : Value
deriving DecidableEq, Repr

/-- The per-SKU record stored in `sku_data`. -/
structure SkuInfo where
  SKU : Option String
  Country : Option String
  Pack_Size : Value
deriving DecidableEq, Repr

/-- The per-product record stored in `resource_data`. -/
structure ResInfo where
  Resource_ID : Option String
  Resource_Description : Option String
deriving DecidableEq, Repr

/-- Python `d[k] = v` on an insertion-ordered dict modelled as an
association list: replace in place if the key exists, else append. -/
def dictInsert (k : String) (v : β) : List (String × β) → List (String × β)
  | [] => [(k, v)]
  | p :: rest => if p.1 == k then (k, v) :: rest else p :: dictInsert k v rest

/-- Shared shape of the three dict-building loops of `load_excel_data`:
each row yields an optional key; `firstWins = true` skips rows whose key
is already present (the `prod_id not in sku_data` guard), `firstWins =
false` assigns unconditionally (plain `d[k] = v`). -/
def buildDict (key? : α → Option String) (val : α → β) (firstWins : Bool) :
    List α → List (String × β) → List (String × β)
  | [], acc => acc
  | r :: rest, acc =>
    match key? r with
    | none => buildDict key? val firstWins rest acc
    | some k =>
      match firstWins with
      | true =>
        if (acc.lookup k).isSome then buildDict key? val true rest acc
        else buildDict key? val true rest (acc ++ [(k, val r)])
      | false => buildDict key? val false rest (dictInsert k (val r) acc)

/-- Key of a header column: the normalized product number, kept only if
truthy and not the literal string "0". -/
def headerKey (c : HeaderCol) : Option String :=
  (normalize_product_no c.idCell).bind (fun pid => if pid = "0" then none else some pid)

/-- The stored header record of a column. -/
def headerVal (c : HeaderCol) : HeaderInfo :=
  { Product_ID := (normalize_product_no c.idCell).getD ""
    Product_Description := normalize_text c.descCell
    Batch_Size := c.batchCell
    Column_Index := c.colIdx + 14 }

/-- Embeds `product_headers`: dict keyed by normalized product id (assignment
overwrites, so the last column with a given id wins). -/
def buildHeaders (cols : List HeaderCol) : List (String × HeaderInfo) :=
  buildDict headerKey headerVal false cols []

/-- Embeds `df_materials_filtered`: rows whose normalized material id is
non-null and not "0", paired with that normalized id
(`Material_Normalized`). -/
def filterMaterials (rows : List MatRawRow) : List (MatRawRow × String) :=
  rows.filterMap (fun r =>
    (normalize_product_no r.Material).bind (fun n => if n = "0" then none else some (r, n)))

/-- The stored `sku_data` record of an Adv-Mkt row. -/
def skuInfoOf (r : AdvRow) : SkuInfo :=
  { SKU := normalize_text r.SKU
    Country := normalize_text r.Country
    Pack_Size := r.Pack_Size }

/-- Embeds `sku_data`: keyed by normalized product id; a row is inserted only
when its key is not yet present (first occurrence wins). -/
def buildSkuData (rows : List AdvRow) : List (String × SkuInfo) :=
  buildDict (fun r => normalize_product_no r.Product_ID) skuInfoOf true rows []

/-- The stored `resource_data` record of a Line-Utilization row. -/
def resInfoOf (r : ResRow) : ResInfo :=
  { Resource_ID := normalize_text r.Resource_ID
    Resource_Description := normalize_text r.Resource_Description }

/-- Embeds `resource_data`: keyed by normalized product id; assignment
overwrites, so the last row with a given id wins. -/
def buildResourceData (rows : List ResRow) : List (String × ResInfo) :=
  buildDict (fun r => normalize_product_no r.Product_ID) resInfoOf false rows []

/-- The in-memory result of `load_excel_data` (quantity matrix omitted:
the source passes it through unprocessed). -/
structure ExtractedData where
  headers : List (String × HeaderInfo)
  materials : List (MatRawRow × String)
  skuData : List (String × SkuInfo)
  resourceData : List (String × ResInfo)

/-- Embeds `load_excel_data` on the four cell bands. -/
def load_excel_data (headerCols : List HeaderCol) (matRows : List MatRawRow)
    (advRows : List AdvRow) (resRows : List ResRow) : ExtractedData :=
  { headers := buildHeaders headerCols
    materials := filterMaterials matRows
    skuData := buildSkuData advRows
    resourceData := buildResourceData resRows }

/- ===================== Tables and batch upserts ===================== -/

/-- Application of `normalize_text` to a value that extraction already turned
into an optional string (`info.get(...)` returning a str or `None`). -/
def normalizeTextOpt (o : Option String) : Option String :=
  match o with
  | some s => normalize_text (.vStr s)
  | none => none

/-- Python `pat in s` at the character-list level. -/
def listContainsSub : List Char → List Char → Bool
  | [], pat => pat.isEmpty
  | c :: rest, pat => pat.isPrefixOf (c :: rest) || listContainsSub rest pat

/-- Python `pat in s`. -/
def strContains (s pat : String) : Bool := listContainsSub s.data pat.data

/-- Python `s.startswith(pat)`. -/
def strStarts (s pat : String) : Bool := pat.data.isPrefixOf s.data

/-- Replace the first row clashing with the incoming tuple by its
updated version (`ON DUPLICATE KEY UPDATE` on a key-unique table touches
exactly one row). -/
def updateFirst (clash : ρ → σ → Bool) (upd : Nat → σ → ρ → σ) (t : Nat) (r : ρ) :
    List σ → List σ
  | [] => []
  | row :: rest =>
    if clash r row then upd t row r :: rest else row :: updateFirst clash upd t r rest

/-- One `INSERT ... ON DUPLICATE KEY UPDATE` of one tuple: update the
clashing row if any unique key collides, else append a fresh row. -/
def upsertOne (clash : ρ → σ → Bool) (upd : Nat → σ → ρ → σ) (mk : Nat → ρ → σ)
    (t : Nat) (db : List σ) (r : ρ) : List σ :=
  if db.any (clash r) then updateFirst clash upd t r db else db ++ [mk t r]

/-- Embeds `cursor.executemany` of an upsert statement: tuples processed in
order. -/
def upsertMany (clash : ρ → σ → Bool) (upd : Nat → σ → ρ → σ) (mk : Nat → ρ → σ)
    (t : Nat) (db : List σ) (data : List ρ) : List σ :=
  data.foldl (upsertOne clash upd mk t) db

/-- A stored `materials` row. -/
structure MaterialRow where
  material_id : String
  material_code : String
  material_description : Option String
  «section» : Option String
  common_unique : Option String
  total_lead_time_weeks : Option PyFloat
  buom : Option String
  model : Option String
  created_at : Nat
  updated_at : Nat
deriving DecidableEq, Repr

/-- The parameter tuple built by `insert_materials` for one filtered
materials row. -/
structure MatTuple where
  material_id : String
  material_code : String
  material_description : Option String
  «section» : Option String
  common_unique : Option String
  total_lead_time_weeks : Option PyFloat
  buom : Option String
  model : Option String
deriving DecidableEq, Repr

def matTupleOf (p : MatRawRow × String) : MatTuple :=
  { material_id := p.2
    material_code := p.2
    material_description := normalize_text p.1.Material_Description
    «section» := normalize_text p.1.Section
    common_unique := normalize_text p.1.Common_Unique
    total_lead_time_weeks :=
      if pdIsna p.1.Total_Lead_Time then none else pyFloatOf p.1.Total_Lead_Time
    buom := normalize_text p.1.BUoM
    model := extract_model_components p.1.Model }

/-- Unique-key collision for `materials` (`material_id` primary,
`material_code` unique). -/
def matClash (r : MatTuple) (row : MaterialRow) : Bool :=
  row.material_id == r.material_id || row.material_code == r.material_code

/-- Clause `ON DUPLICATE KEY UPDATE material_description = VALUES(...),
updated_at = CURRENT_TIMESTAMP`. -/
def matUpd (t : Nat) (row : MaterialRow) (r : MatTuple) : MaterialRow :=
  { row with material_description := r.material_description, updated_at := t }

def matMk (t : Nat) (r : MatTuple) : MaterialRow :=
  { material_id := r.material_id
    material_code := r.material_code
    material_description := r.material_description
    «section» := r.«section»
    common_unique := r.common_unique
    total_lead_time_weeks := r.total_lead_time_weeks
    buom := r.buom
    model := r.model
    created_at := t
    updated_at := t }

/-- Embeds `insert_materials`: batch upsert of the filtered materials rows. -/
def insert_materials (t : Nat) (db : List MaterialRow)
    (materials_df : List (MatRawRow × String)) : List MaterialRow :=
  upsertMany matClash matUpd matMk t db (materials_df.map matTupleOf)

/-- A stored `products` row. -/
structure ProductRow where
  product_id : String
  product_code : String
  product_description : Option String
  product_family : String
  hierarchy_level : String
  bom_type : String
  batch_size : Value
  created_at : Nat
  updated_at : Nat
deriving DecidableEq, Repr

structure ProdTuple where
  product_id : String
  product_code : String
  product_description : Option String
  product_family : String
  hierarchy_level : String
  bom_type : String
  batch_size : Value
deriving DecidableEq, Repr

def prodTupleOf (p : String × HeaderInfo) : ProdTuple :=
  { product_id := p.1
    product_code := p.1
    product_description := normalizeTextOpt p.2.Product_Description
    product_family := "N/A"
    hierarchy_level :=
      if strStarts p.1 "8" then "Packing"
      else if strStarts p.1 "700003" then "Assembly"
      else "Filling"
    bom_type := "Standard"
    batch_size := p.2.Batch_Size }

def prodClash (r : ProdTuple) (row : ProductRow) : Bool :=
  row.product_id == r.product_id || row.product_code == r.product_code

/-- Clause `ON DUPLICATE KEY UPDATE product_description = VALUES(...),
updated_at = CURRENT_TIMESTAMP`. -/
def prodUpd (t : Nat) (row : ProductRow) (r : ProdTuple) : ProductRow :=
  { row with product_description := r.product_description, updated_at := t }

def prodMk (t : Nat) (r : ProdTuple) : ProductRow :=
  { product_id := r.product_id
    product_code := r.product_code
    product_description := r.product_description
    product_family := r.product_family
    hierarchy_level := r.hierarchy_level
    bom_type := r.bom_type
    batch_size := r.batch_size
    created_at := t
    updated_at := t }

/-- Embeds `insert_products` (the `resource_data` argument of the source is
unused by its body and is omitted here). -/
def insert_products (t : Nat) (db : List ProductRow)
    (product_headers : List (String × HeaderInfo)) : List ProductRow :=
  upsertMany prodClash prodUpd prodMk t db (product_headers.map prodTupleOf)

/-- A stored `skus` row. -/
structure SkuRow where
  sku_id : String
  sku_code : String
  sku_description : Option String
  product_family : String
  pack_size : Value
  country : Option String
  region : String
  assembly_product_id : Option String
  filling_product_id : Option String
  created_at : Nat
  updated_at : Nat
deriving DecidableEq, Repr

/-- One entry of the caller-supplied `product_mapping` dict:
`{'assembly': ..., 'filling': ..., 'family': ...}`. -/
structure MapEntry where
  assembly : String
  filling : String
  family : String
deriving DecidableEq, Repr

structure SkuTuple where
  sku_id : String
  sku_code : String
  sku_description : Option String
  product_family : String
  pack_size : Value
  country : Option String
  region : String
  assembly_product_id : Option String
  filling_product_id : Option String
deriving DecidableEq, Repr

/-- Tuple built by `insert_skus` for one `sku_data` entry:
`mapping = hierarchy_mapping.get(sku_code, {})`, then
`mapping.get('assembly', None)`, `mapping.get('filling', None)` and
`mapping.get('family', 'N/A')`. -/
def skuTupleOf (hierarchy_mapping : List (String × MapEntry)) (p : String × SkuInfo) :
    SkuTuple :=
  { sku_id := p.1
    sku_code := p.1
    sku_description := normalizeTextOpt p.2.SKU
    product_family := ((hierarchy_mapping.lookup p.1).map MapEntry.family).getD "N/A"
    pack_size := p.2.Pack_Size
    country := normalizeTextOpt p.2.Country
    region := "N/A"
    assembly_product_id := (hierarchy_mapping.lookup p.1).map MapEntry.assembly
    filling_product_id := (hierarchy_mapping.lookup p.1).map MapEntry.filling }

def skuClash (r : SkuTuple) (row : SkuRow) : Bool :=
  row.sku_id == r.sku_id || row.sku_code == r.sku_code

/-- Clause `ON DUPLICATE KEY UPDATE updated_at = CURRENT_TIMESTAMP`. -/
def skuUpd (t : Nat) (row : SkuRow) (_r : SkuTuple) : SkuRow :=
  { row with updated_at := t }

def skuMk (t : Nat) (r : SkuTuple) : SkuRow :=
  { sku_id := r.sku_id
    sku_code := r.sku_code
    sku_description := r.sku_description
    product_family := r.product_family
    pack_size := r.pack_size
    country := r.country
    region := r.region
    assembly_product_id := r.assembly_product_id
    filling_product_id := r.filling_product_id
    created_at := t
    updated_at := t }

/-- Embeds `insert_skus`. -/
def insert_skus (t : Nat) (db : List SkuRow) (sku_data : List (String × SkuInfo))
    (hierarchy_mapping : List (String × MapEntry)) : List SkuRow :=
  upsertMany skuClash skuUpd skuMk t db (sku_data.map (skuTupleOf hierarchy_mapping))

/-- A stored `resources` row. -/
structure ResourceRow where
  resource_id : Option String
  resource_description : Option String
  molecule : String
  product_id : String
  stage : String
  created_at : Nat
  updated_at : Nat
deriving DecidableEq, Repr

structure ResTuple where
  resource_id : Option String
  resource_description : Option String
  molecule : String
  product_id : String
  stage : String
deriving DecidableEq, Repr

/-- Tuple built by `insert_resources` for one `resource_data` entry.
The dict built by extraction always carries both keys, so
`info.get('Resource_ID', 'N/A')` is the stored (possibly `None`)
value. -/
def resTupleOf (p : String × ResInfo) : ResTuple :=
  { resource_id := p.2.Resource_ID
    resource_description := p.2.Resource_Description
    molecule := "N/A"
    product_id := p.1
    stage :=
      if strContains p.1 "700003" then "Assembly"
      else if strContains p.1 "700001" then "Filling"
      else "Packing" }

def resClash (r : ResTuple) (row : ResourceRow) : Bool :=
  row.resource_id == r.resource_id

/-- Clause `ON DUPLICATE KEY UPDATE updated_at = CURRENT_TIMESTAMP`. -/
def resUpd (t : Nat) (row : ResourceRow) (_r : ResTuple) : ResourceRow :=
  { row with updated_at := t }

def resMk (t : Nat) (r : ResTuple) : ResourceRow :=
  { resource_id := r.resource_id
    resource_description := r.resource_description
    molecule := r.molecule
    product_id := r.product_id
    stage := r.stage
    created_at := t
    updated_at := t }

/-- Embeds `insert_resources`. -/
def insert_resources (t : Nat) (db : List ResourceRow)
    (resource_data : List (String × ResInfo)) : List ResourceRow :=
  upsertMany resClash resUpd resMk t db (resource_data.map resTupleOf)

/-- A stored `routing_rules` row. -/
structure RuleRow where
  rule_id : String
  rule_description : String
  resource_id : String
  rule_type : String
  stage : String
  priority : Nat
  is_active : Bool
  created_at : Nat
  updated_at : Nat
deriving DecidableEq, Repr

/-- One entry of the hardcoded `routing_rules` dict (field `RuleType`
stands for the Python key `'Type'`, a reserved word here). -/
structure RuleInfo where
  Description : String
  Resource : String
  RuleType : String
  Stage : String
deriving DecidableEq, Repr

structure RuleTuple where
  rule_id : String
  rule_description : String
  resource_id : String
  rule_type : String
  stage : String
  priority : Nat
  is_active : Bool
deriving DecidableEq, Repr

def ruleTupleOf (p : String × RuleInfo) : RuleTuple :=
  { rule_id := p.1
    rule_description := p.2.Description
    resource_id := p.2.Resource
    rule_type := p.2.RuleType
    stage := p.2.Stage
    priority := 1
    is_active := true }

def ruleClash (r : RuleTuple) (row : RuleRow) : Bool :=
  row.rule_id == r.rule_id

/-- Clause `ON DUPLICATE KEY UPDATE updated_at = CURRENT_TIMESTAMP`. -/
def ruleUpd (t : Nat) (row : RuleRow) (_r : RuleTuple) : RuleRow :=
  { row with updated_at := t }

def ruleMk (t : Nat) (r : RuleTuple) : RuleRow :=
  { rule_id := r.rule_id
    rule_description := r.rule_description
    resource_id := r.resource_id
    rule_type := r.rule_type
    stage := r.stage
    priority := r.priority
    is_active := r.is_active
    created_at := t
    updated_at := t }

/-- Embeds `insert_routing_rules`. -/
def insert_routing_rules (t : Nat) (db : List RuleRow)
    (routing_rules : List (String × RuleInfo)) : List RuleRow :=
  upsertMany ruleClash ruleUpd ruleMk t db (routing_rules.map ruleTupleOf)

/-- One record of the `pegging_data` passed to `insert_bom_hierarchy`
(a Python dict; absent keys are `vNone`, matching `record.get`). -/
structure PeggingRecord where
  SKU : Value
  BOM_Level : Value
  Product_ID : Value
  Product_Description : Value
  Material : Value
  Material_Description : Value
  QTY : Value
  Section : Value
  Common_Unique : Value
  BUoM : Value
  Total_Lead_Time : Value
  Resource_ID : Value
  Resource_Description : Value
deriving DecidableEq, Repr

/-- A stored `bom_hierarchy` row (the auto-increment id is the list
position). -/
structure BomRow where
  sku_id : Value
  level : Nat
  product_id : Value
  product_description : Value
  material_id : Value
  material_description : Value
  quantity : PyFloat
  «section» : Value
  common_unique : Value
  buom : Value
  lead_time_weeks : Option PyFloat
  resource_id : Value
  resource_description : Value
  created_at : Nat
  updated_at : Nat
deriving DecidableEq, Repr

/-- The row built for one pegging record: level from the `BOM_Level`
tag, quantity `float(record.get('QTY', 0))` when `is_valid_qty` holds
and `0` otherwise. -/
def bomRowOf (t : Nat) (r : PeggingRecord) : BomRow :=
  { sku_id := r.SKU
    level :=
      if r.BOM_Level == Value.vStr "L1_Market_SKU" then 1
      else if r.BOM_Level == Value.vStr "L2_Assembly" then 2
      else 3
    product_id := r.Product_ID
    product_description := r.Product_Description
    material_id := r.Material
    material_description := r.Material_Description
    quantity := if is_valid_qty r.QTY then (pyFloatOf r.QTY).getD (.rat 0) else .rat 0
    «section» := r.Section
    common_unique := r.Common_Unique
    buom := r.BUoM
    lead_time_weeks :=
      if pdIsna r.Total_Lead_Time then none else pyFloatOf r.Total_Lead_Time
    resource_id := r.Resource_ID
    resource_description := r.Resource_Description
    created_at := t
    updated_at := t }

/-- Embeds `insert_bom_hierarchy`: plain `INSERT` with no conflict key — every
run appends one row per record. -/
def insert_bom_hierarchy (t : Nat) (db : List BomRow)
    (pegging_data : List PeggingRecord) : List BomRow :=
  db ++ pegging_data.map (bomRowOf t)

/- ============= Connector error behaviour and `main` ============= -/

/-- One logger call: level and the formatted message string. -/
structure LogLine where
  level : String
  msg : String
deriving DecidableEq, Repr

/-- Outcome of one database round trip for a batch statement. -/
inductive DbOutcome where
  | ok (rowcount : Nat)
  | err (e : String)
deriving DecidableEq, Repr

/-- Embeds `MemSQLConnector.executemany_query`: on success returns the cursor
row count and logs it; on a `mysql.connector.Error` logs
`f"Batch Insert Error: {e}"` — the message embeds only the error, not
the query — and returns 0.  The `query` argument is reported in no
branch. -/
def executemany_query (query : String) (outcome : DbOutcome) : Nat × List LogLine :=
  match outcome with
  | .ok n => (n, [⟨"INFO", "Inserted " ++ toString n ++ " rows"⟩])
  | .err e => (0, [⟨"ERROR", "Batch Insert Error: " ++ e⟩])

/-- Embeds `MemSQLConnector.execute_query`: on error logs
`f"Query Error: {e}\nQuery: {query}"` and returns false. -/
def execute_query (query : String) (outcome : Option String) : Bool × List LogLine :=
  match outcome with
  | none => (true, [])
  | some e => (false, [⟨"ERROR", "Query Error: " ++ e ++ "\nQuery: " ++ query⟩])

/-- The SQL text of the materials batch insert (the Python triple-quoted
string of `insert_materials`). -/
def materialsInsertQuery : String :=
  "\n        INSERT INTO materials \n        (material_id, material_code, material_description, section, common_unique, \n         total_lead_time_weeks, buom, model) \n        VALUES (%s, %s, %s, %s, %s, %s, %s, %s)\n        ON DUPLICATE KEY UPDATE\n            material_description = VALUES(material_description),\n            updated_at = CURRENT_TIMESTAMP\n    "

/-- Some log line's message contains the given query text. -/
def logsContainQuery (logs : List LogLine) (query : String) : Bool :=
  logs.any (fun l => strContains l.msg query)

/-- The external events of one `main()` run: whether `load_excel_data`
raises, whether `connect`/`create_tables` succeed, whether an
exception interrupts the insert phase, and the database outcome of each
entity batch. -/
structure RunEnv where
  loadRaises : Option String
  connectOk : Bool
  createTablesOk : Bool
  step4Raises : Option String
  matOutcome : DbOutcome
  prodOutcome : DbOutcome
  skuOutcome : DbOutcome
  resOutcome : DbOutcome
  ruleOutcome : DbOutcome
deriving DecidableEq, Repr

/-- Observable outcome of one `main()` run. -/
structure RunOutcome where
  loggedTrace : Bool
  rollbackCalled : Bool
  closeCalled : Bool
  uncaught : Option String
  retVal : Option Bool
  batchesRun : List String
  batchCounts : List (String × Nat)
deriving DecidableEq, Repr

/-- The `except` block of `main`: `logger.error(..., exc_info=True)`,
then `connector.rollback()` and `connector.close()`.  `connector` is a
local of `main`, bound only by step 2; when the exception was raised
before that binding, evaluating `connector` in the handler raises
`UnboundLocalError`, which escapes `main`. -/
def exceptBlock (connectorBound : Bool) : RunOutcome :=
  if connectorBound then
    { loggedTrace := true, rollbackCalled := true, closeCalled := true,
      uncaught := none, retVal := some false, batchesRun := [], batchCounts := [] }
  else
    { loggedTrace := true, rollbackCalled := false, closeCalled := false,
      uncaught := some "UnboundLocalError: local variable connector referenced before assignment",
      retVal := none, batchesRun := [], batchCounts := [] }

/-- Row count a batch reports, via `executemany_query`. -/
def batchCount (o : DbOutcome) : Nat := (executemany_query "" o).1

/-- Embeds `main()`: load, connect, create tables, then the five entity batches
in order; each batch's return value is logged and ignored, so a failed
batch never stops the run. -/
def runMain (env : RunEnv) : RunOutcome :=
  match env.loadRaises with
  | some _ => exceptBlock false
  | none =>
    if !env.connectOk then
      { loggedTrace := false, rollbackCalled := false, closeCalled := false,
        uncaught := none, retVal := some false, batchesRun := [], batchCounts := [] }
    else if !env.createTablesOk then
      { loggedTrace := false, rollbackCalled := false, closeCalled := true,
        uncaught := none, retVal := some false, batchesRun := [], batchCounts := [] }
    else
      match env.step4Raises with
      | some _ => exceptBlock true
      | none =>
        { loggedTrace := false, rollbackCalled := false, closeCalled := true,
          uncaught := none, retVal := some true,
          batchesRun := ["materials", "products", "skus", "resources", "routing_rules"],
          batchCounts :=
            [("materials", batchCount env.matOutcome),
             ("products", batchCount env.prodOutcome),
             ("skus", batchCount env.skuOutcome),
             ("resources", batchCount env.resOutcome),
             ("routing_rules", batchCount env.ruleOutcome)] }

/-- Embeds `exit(0 if success else 1)`, with exit code 1 when an exception
escapes `main` (CPython's unhandled-exception exit status). -/
def processExitCode (env : RunEnv) : Nat :=
  if (runMain env).retVal = some true then 0 else 1

/-- The claim's formulation of the quantity validity check, built from
the spec's words: the string conversion of the value, after whitespace
trim, is non-empty, not "0", not "nan", and parses as a float strictly
greater than zero. -/
def specValidQty (v : Value) : Bool :=
  let s := stripList (pyStr v).data
  !s.isEmpty && !(s == ['0']) && !(s == "nan".data)
    && pyGtZero (pyFloatParse (String.mk s))


/- ===================== Dict lookup lemmas ===================== -/

theorem dictInsert_lookup (k k' : String) (v : β) (d : List (String × β)) :
    (dictInsert k v d).lookup k' = if k' = k then some v else d.lookup k' := by
  induction d with
  | nil =>
    by_cases h : k' = k
    · simp [dictInsert, List.lookup_cons, h]
    · have hb : (k' == k) = false := by simp [h]
      simp [dictInsert, List.lookup_cons, h, hb]
  | cons p rest ih =>
    obtain ⟨pk, pv⟩ := p
    by_cases h : pk = k
    · subst h
      by_cases h2 : k' = pk
      · simp [dictInsert, List.lookup_cons, h2, ih]
      · have hb : (k' == pk) = false := by simp [h2]
        simp [dictInsert, List.lookup_cons, h2, ih, hb]
    · have hb : (pk == k) = false := by simp [h]
      by_cases h2 : k' = k
      · subst h2
        have hb2 : (k' == pk) = false := by simp [Ne.symm h]
        simp [dictInsert, List.lookup_cons, ih, hb, hb2]
      · by_cases h3 : k' = pk
        · subst h3
          simp [dictInsert, List.lookup_cons, ih, hb, h2]
        · have hb3 : (k' == pk) = false := by simp [h3]
          simp [dictInsert, List.lookup_cons, ih, hb, h2, hb3]

theorem buildDict_lookup_first (key? : α → Option String) (val : α → β)
    (rows : List α) (acc : List (String × β)) (k : String) :
    (buildDict key? val true rows acc).lookup k =
      (acc.lookup k).or ((rows.find? (fun r => key? r == some k)).map val) := by
  induction rows generalizing acc with
  | nil => simp [buildDict, Option.or_none]
  | cons r rest ih =>
    cases hk : key? r with
    | none =>
      have hp : (key? r == some k) = false := by simp [hk]
      simp only [buildDict, hk]
      rw [ih, List.find?_cons_of_neg _ (by simp [hp])]
    | some k0 =>
      by_cases h1 : (acc.lookup k0).isSome
      · simp only [buildDict, hk]
        rw [if_pos h1, ih]
        by_cases hkk : k0 = k
        · subst hkk
          obtain ⟨a, ha⟩ := Option.isSome_iff_exists.mp h1
          rw [ha]
          simp
        · have hp : (key? r == some k) = false := by simp [hk, hkk]
          rw [List.find?_cons_of_neg _ (by simp [hp])]
      · simp only [buildDict, hk]
        rw [if_neg h1, ih, List.lookup_append]
        rw [Option.not_isSome_iff_eq_none] at h1
        by_cases hkk : k0 = k
        · subst hkk
          rw [h1]
          have hp : (key? r == some k0) = true := by simp [hk]
          rw [List.find?_cons_of_pos _ (by simp [hp])]
          simp [List.lookup_cons]
        · have hone : ([(k0, val r)] : List (String × β)).lookup k = none := by
            have hb : (k == k0) = false := by simp [Ne.symm hkk]
            simp [List.lookup_cons, hb]
          have hp : (key? r == some k) = false := by simp [hk, hkk]
          rw [hone, Option.or_none, List.find?_cons_of_neg _ (by simp [hp])]

theorem buildDict_lookup_last (key? : α → Option String) (val : α → β)
    (rows : List α) (acc : List (String × β)) (k : String) :
    (buildDict key? val false rows acc).lookup k =
      ((rows.reverse.find? (fun r => key? r == some k)).map val).or (acc.lookup k) := by
  induction rows generalizing acc with
  | nil => simp [buildDict]
  | cons r rest ih =>
    cases hk : key? r with
    | none =>
      have hp : (key? r == some k) = false := by simp [hk]
      simp only [buildDict, hk, List.reverse_cons, List.find?_append]
      rw [ih]
      have : ([r].find? (fun r => key? r == some k)) = none := by
        simp [List.find?, hp]
      rw [this, Option.or_none]
    | some k0 =>
      simp only [buildDict, hk, List.reverse_cons, List.find?_append]
      rw [ih, dictInsert_lookup]
      cases h2 : rest.reverse.find? (fun r => key? r == some k) with
      | some x => simp
      | none =>
        simp only [Option.map_none', Option.none_or]
        by_cases hkk : k = k0
        · subst hkk
          have hp : (key? r == some k) = true := by simp [hk]
          simp [List.find?, hp]
        · have hp : (key? r == some k) = false := by simp [hk, Ne.symm hkk]
          simp [List.find?, hp, hkk]

example :
    (buildSkuData [⟨.vStr "A1", .vStr "first", .vNone, .vNone⟩,
      ⟨.vStr "A1", .vStr "second", .vNone, .vNone⟩]).lookup "A1"
      = some ⟨some "first", none, .vNone⟩ := by decide

example :
    (buildResourceData [⟨.vStr "r1", .vNone, .vStr "A1"⟩,
      ⟨.vStr "r2", .vNone, .vStr "A1"⟩]).lookup "A1"
      = some ⟨some "r2", none⟩ := by decide

/- ===================== Generic upsert lemmas ===================== -/

theorem updateFirst_length (clash : ρ → σ → Bool) (upd : Nat → σ → ρ → σ)
    (t : Nat) (r : ρ) (db : List σ) :
    (updateFirst clash upd t r db).length = db.length := by
  induction db with
  | nil => rfl
  | cons row rest ih =>
    by_cases h : clash r row <;> simp [updateFirst, h, ih]

theorem upsertOne_length (clash : ρ → σ → Bool) (upd : Nat → σ → ρ → σ)
    (mk : Nat → ρ → σ) (t : Nat) (db : List σ) (r : ρ) :
    (upsertOne clash upd mk t db r).length
      = if db.any (clash r) then db.length else db.length + 1 := by
  by_cases h : db.any (clash r) <;> simp [upsertOne, h, updateFirst_length]

theorem updateFirst_any (clash : ρ → σ → Bool) (upd : Nat → σ → ρ → σ)
    (Hupd : ∀ t row r r', clash r row = true → clash r (upd t row r') = true)
    (t : Nat) (r r' : ρ) (db : List σ) (h : db.any (clash r) = true) :
    (updateFirst clash upd t r' db).any (clash r) = true := by
  induction db with
  | nil => simp at h
  | cons row rest ih =>
    by_cases hc : clash r' row
    · simp only [updateFirst, hc, if_true, List.any_cons]
      rcases (List.any_cons .. ▸ h : (clash r row || rest.any (clash r)) = true) with h'
      rcases Bool.or_eq_true_iff.mp h' with h1 | h2
      · exact Bool.or_eq_true_iff.mpr (Or.inl (Hupd t row r r' h1))
      · exact Bool.or_eq_true_iff.mpr (Or.inr h2)
    · simp only [updateFirst, hc, if_false, List.any_cons]
      rcases Bool.or_eq_true_iff.mp (List.any_cons .. ▸ h) with h1 | h2
      · exact Bool.or_eq_true_iff.mpr (Or.inl h1)
      · exact Bool.or_eq_true_iff.mpr (Or.inr (ih h2))

theorem upsertOne_any_preserved (clash : ρ → σ → Bool) (upd : Nat → σ → ρ → σ)
    (mk : Nat → ρ → σ)
    (Hupd : ∀ t row r r', clash r row = true → clash r (upd t row r') = true)
    (t : Nat) (r r' : ρ) (db : List σ) (h : db.any (clash r) = true) :
    (upsertOne clash upd mk t db r').any (clash r) = true := by
  by_cases hc : db.any (clash r')
  · simpa [upsertOne, hc] using updateFirst_any clash upd Hupd t r r' db h
  · simp [upsertOne, hc, List.any_append, h]

theorem upsertOne_any_self (clash : ρ → σ → Bool) (upd : Nat → σ → ρ → σ)
    (mk : Nat → ρ → σ)
    (Hupd : ∀ t row r r', clash r row = true → clash r (upd t row r') = true)
    (Hmk : ∀ t r, clash r (mk t r) = true)
    (t : Nat) (r : ρ) (db : List σ) :
    (upsertOne clash upd mk t db r).any (clash r) = true := by
  by_cases hc : db.any (clash r)
  · simpa [upsertOne, hc] using updateFirst_any clash upd Hupd t r r db hc
  · simp [upsertOne, hc, List.any_append, Hmk]

theorem upsertMany_any_preserved (clash : ρ → σ → Bool) (upd : Nat → σ → ρ → σ)
    (mk : Nat → ρ → σ)
    (Hupd : ∀ t row r r', clash r row = true → clash r (upd t row r') = true)
    (t : Nat) (r : ρ) (data : List ρ) (db : List σ) (h : db.any (clash r) = true) :
    (upsertMany clash upd mk t db data).any (clash r) = true := by
  induction data generalizing db with
  | nil => exact h
  | cons d ds ih =>
    exact ih (upsertOne clash upd mk t db d)
      (upsertOne_any_preserved clash upd mk Hupd t r d db h)

theorem upsertMany_any_mem (clash : ρ → σ → Bool) (upd : Nat → σ → ρ → σ)
    (mk : Nat → ρ → σ)
    (Hupd : ∀ t row r r', clash r row = true → clash r (upd t row r') = true)
    (Hmk : ∀ t r, clash r (mk t r) = true)
    (t : Nat) (r : ρ) (data : List ρ) (db : List σ) (h : r ∈ data) :
    (upsertMany clash upd mk t db data).any (clash r) = true := by
  induction data generalizing db with
  | nil => simp at h
  | cons d ds ih =>
    rcases List.mem_cons.mp h with rfl | h2
    · exact upsertMany_any_preserved clash upd mk Hupd t r ds _
        (upsertOne_any_self clash upd mk Hupd Hmk t r db)
    · exact ih _ h2

theorem upsertMany_length_of_all_clash (clash : ρ → σ → Bool) (upd : Nat → σ → ρ → σ)
    (mk : Nat → ρ → σ)
    (Hupd : ∀ t row r r', clash r row = true → clash r (upd t row r') = true)
    (t : Nat) (data : List ρ) (db : List σ)
    (h : ∀ r ∈ data, db.any (clash r) = true) :
    (upsertMany clash upd mk t db data).length = db.length := by
  induction data generalizing db with
  | nil => rfl
  | cons d ds ih =>
    have h1 : (upsertOne clash upd mk t db d).length = db.length := by
      simp [upsertOne, h d (List.mem_cons_self d ds), updateFirst_length]
    calc (upsertMany clash upd mk t (upsertOne clash upd mk t db d) ds).length
        = (upsertOne clash upd mk t db d).length := by
          refine ih _ (fun r hr => ?_)
          exact upsertOne_any_preserved clash upd mk Hupd t r d db (h r (List.mem_cons_of_mem d hr))
      _ = db.length := h1

/-- Running the same batch upsert twice leaves the row count unchanged:
after the first run every tuple's key is present, so the second run only
updates. -/
theorem upsertMany_twice_length (clash : ρ → σ → Bool) (upd : Nat → σ → ρ → σ)
    (mk : Nat → ρ → σ)
    (Hupd : ∀ t row r r', clash r row = true → clash r (upd t row r') = true)
    (Hmk : ∀ t r, clash r (mk t r) = true)
    (t1 t2 : Nat) (data : List ρ) (db : List σ) :
    (upsertMany clash upd mk t2 (upsertMany clash upd mk t1 db data) data).length
      = (upsertMany clash upd mk t1 db data).length :=
  upsertMany_length_of_all_clash clash upd mk Hupd t2 data _
    (fun r hr => upsertMany_any_mem clash upd mk Hupd Hmk t1 r data db hr)

theorem matUpd_clash : ∀ t row r r', matClash r row = true → matClash r (matUpd t row r') = true := by
  intro t row r r' h
  simpa [matClash, matUpd] using h

theorem matMk_clash : ∀ t r, matClash r (matMk t r) = true := by
  intro t r
  simp [matClash, matMk]

theorem prodUpd_clash : ∀ t row r r', prodClash r row = true → prodClash r (prodUpd t row r') = true := by
  intro t row r r' h
  simpa [prodClash, prodUpd] using h

theorem prodMk_clash : ∀ t r, prodClash r (prodMk t r) = true := by
  intro t r
  simp [prodClash, prodMk]

theorem skuUpd_clash : ∀ t row r r', skuClash r row = true → skuClash r (skuUpd t row r') = true := by
  intro t row r r' h
  simpa [skuClash, skuUpd] using h

theorem skuMk_clash : ∀ t r, skuClash r (skuMk t r) = true := by
  intro t r
  simp [skuClash, skuMk]

theorem resUpd_clash : ∀ t row r r', resClash r row = true → resClash r (resUpd t row r') = true := by
  intro t row r r' h
  simpa [resClash, resUpd] using h

theorem resMk_clash : ∀ t r, resClash r (resMk t r) = true := by
  intro t r
  simp [resClash, resMk]

theorem ruleUpd_clash : ∀ t row r r', ruleClash r row = true → ruleClash r (ruleUpd t row r') = true := by
  intro t row r r' h
  simpa [ruleClash, ruleUpd] using h

theorem ruleMk_clash : ∀ t r, ruleClash r (ruleMk t r) = true := by
  intro t r
  simp [ruleClash, ruleMk]

/- ===================== String/quantity helper lemmas ===================== -/

theorem stripList_eq_rdropWhile (x : List Char) :
    stripList x = List.rdropWhile Char.isWhitespace (x.dropWhile Char.isWhitespace) :=
  rfl

theorem rdropIsPre (p : Char → Bool) (l : List Char) :
    List.rdropWhile p l <+: l :=
  List.rdropWhile_prefix p l

theorem dropWhile_eq_self_of_pre {p : Char → Bool} {x y : List Char}
    (hpre : x <+: y) (hy : y.dropWhile p = y) : x.dropWhile p = x := by
  cases x with
  | nil => rfl
  | cons c x2 =>
    obtain ⟨t, ht⟩ := hpre
    have hy2 : y = c :: (x2 ++ t) := by rw [← ht]; rfl
    subst hy2
    rw [List.dropWhile_cons] at hy ⊢
    by_cases hc : p c
    · rw [if_pos hc] at hy
      have hle := ((x2 ++ t).dropWhile_suffix p).length_le
      rw [hy] at hle
      simp at hle
    · rw [if_neg hc]

theorem stripList_idem (l : List Char) : stripList (stripList l) = stripList l := by
  rw [stripList_eq_rdropWhile, stripList_eq_rdropWhile]
  have h1 : (List.rdropWhile Char.isWhitespace (l.dropWhile Char.isWhitespace)).dropWhile
      Char.isWhitespace = List.rdropWhile Char.isWhitespace (l.dropWhile Char.isWhitespace) :=
    dropWhile_eq_self_of_pre (rdropIsPre _ _)
      (List.dropWhile_idempotent _ _)
  rw [h1, List.rdropWhile_idempotent]

/-- Python `float` ignores surrounding whitespace, so parsing a stripped
string gives the same result. -/
theorem pyFloatParse_strip (l : List Char) :
    pyFloatParse (String.mk (stripList l)) = pyFloatParse (String.mk l) := by
  show pyFloatParse ⟨stripList l⟩ = pyFloatParse ⟨l⟩
  unfold pyFloatParse
  simp only [stripList_idem]

/-- A quantity accepted by `is_valid_qty` is stored as a strictly
positive float, hence non-negative. -/
theorem valid_qty_store_nonneg (v : Value) (h : is_valid_qty v = true) :
    ((pyFloatOf v).getD (.rat 0)).nonneg = true := by
  unfold is_valid_qty at h
  by_cases h1 : pdIsna v
  · simp [h1] at h
  · simp only [h1, Bool.false_eq_true, if_false] at h
    by_cases h2 : (stripList (pyStr v).data).isEmpty
        || stripList (pyStr v).data = ['0']
        || stripList (pyStr v).data = "nan".data
    · simp [h2] at h
    · simp only [h2, Bool.false_eq_true, if_false] at h
      cases hf : pyFloatOf v with
      | none => rw [hf] at h; simp [pyGtZero] at h
      | some f =>
        rw [hf] at h
        cases f with
        | rat q =>
          simp only [pyGtZero, decide_eq_true_eq] at h
          simp [PyFloat.nonneg, le_of_lt h]
        | inf => simp [PyFloat.nonneg]
        | negInf => simp [pyGtZero] at h
        | nanv => simp [pyGtZero] at h

/- ===================== Claim theorems ===================== -/

/-- C1: running the load stage twice with identical extracted data
leaves the Material, Product, Resource and Routing-rule row counts
unchanged (the identifier-keyed upserts are idempotent with respect to
the set of rows), while the `bom_hierarchy` row count doubles, because
the BOM hierarchy insert has no conflict key and appends a fresh set of
edges on every run. -/
theorem C1_load_twice_row_counts (t1 t2 : Nat)
    (dbM : List MaterialRow) (df : List (MatRawRow × String))
    (dbP : List ProductRow) (hdrs : List (String × HeaderInfo))
    (dbR : List ResourceRow) (resD : List (String × ResInfo))
    (dbRul : List RuleRow) (rules : List (String × RuleInfo))
    (records : List PeggingRecord) :
    (insert_materials t2 (insert_materials t1 dbM df) df).length
        = (insert_materials t1 dbM df).length
    ∧ (insert_products t2 (insert_products t1 dbP hdrs) hdrs).length
        = (insert_products t1 dbP hdrs).length
    ∧ (insert_resources t2 (insert_resources t1 dbR resD) resD).length
        = (insert_resources t1 dbR resD).length
    ∧ (insert_routing_rules t2 (insert_routing_rules t1 dbRul rules) rules).length
        = (insert_routing_rules t1 dbRul rules).length
    ∧ (insert_bom_hierarchy t2 (insert_bom_hierarchy t1 [] records) records).length
        = 2 * (insert_bom_hierarchy t1 [] records).length := by
  refine ⟨?_, ?_, ?_, ?_, ?_⟩
  · exact upsertMany_twice_length matClash matUpd matMk matUpd_clash matMk_clash
      t1 t2 (df.map matTupleOf) dbM
  · exact upsertMany_twice_length prodClash prodUpd prodMk prodUpd_clash prodMk_clash
      t1 t2 (hdrs.map prodTupleOf) dbP
  · exact upsertMany_twice_length resClash resUpd resMk resUpd_clash resMk_clash
      t1 t2 (resD.map resTupleOf) dbR
  · exact upsertMany_twice_length ruleClash ruleUpd ruleMk ruleUpd_clash ruleMk_clash
      t1 t2 (rules.map ruleTupleOf) dbRul
  · simp [insert_bom_hierarchy]
    ring

/-- C3 counterexample: re-upserting an existing resource with a changed
description leaves the stored `resource_description` at its old value —
the `resources` upsert does not update the descriptive field on
collision, contradicting the claim that every upsert updates the mutable
descriptive fields. -/
theorem C3_counterexample :
    (insert_resources 1 (insert_resources 0 []
        [("P1", ⟨some "R1", some "Old line"⟩)])
        [("P1", ⟨some "R1", some "New line"⟩)]).map ResourceRow.resource_description
      = [some "Old line"]
    ∧ (some "Old line" : Option String) ≠ some "New line" := by
  constructor
  · decide
  · decide

/-- C3 (amended): on unique-key collision the Material and Product
upserts update only the description column and `updated_at`; the
Resource and Routing-rule upserts update only `updated_at`; in all four
the identifying key and every other stored field keep their previous
values, and a collision updates in place (row count unchanged) instead
of inserting. -/
theorem C3_upsert_update_frame :
    (∀ (t : Nat) (row : MaterialRow) (r : MatTuple),
        (matUpd t row r).material_id = row.material_id
      ∧ (matUpd t row r).material_code = row.material_code
      ∧ (matUpd t row r).material_description = r.material_description
      ∧ (matUpd t row r).updated_at = t
      ∧ (matUpd t row r).«section» = row.«section»
      ∧ (matUpd t row r).common_unique = row.common_unique
      ∧ (matUpd t row r).total_lead_time_weeks = row.total_lead_time_weeks
      ∧ (matUpd t row r).buom = row.buom
      ∧ (matUpd t row r).model = row.model
      ∧ (matUpd t row r).created_at = row.created_at)
  ∧ (∀ (t : Nat) (row : ProductRow) (r : ProdTuple),
        (prodUpd t row r).product_id = row.product_id
      ∧ (prodUpd t row r).product_code = row.product_code
      ∧ (prodUpd t row r).product_description = r.product_description
      ∧ (prodUpd t row r).updated_at = t
      ∧ (prodUpd t row r).product_family = row.product_family
      ∧ (prodUpd t row r).hierarchy_level = row.hierarchy_level
      ∧ (prodUpd t row r).bom_type = row.bom_type
      ∧ (prodUpd t row r).batch_size = row.batch_size
      ∧ (prodUpd t row r).created_at = row.created_at)
  ∧ (∀ (t : Nat) (row : ResourceRow) (r : ResTuple),
        resUpd t row r = { row with updated_at := t })
  ∧ (∀ (t : Nat) (row : RuleRow) (r : RuleTuple),
        ruleUpd t row r = { row with updated_at := t })
  ∧ (∀ (t : Nat) (db : List MaterialRow) (r : MatTuple),
        (upsertOne matClash matUpd matMk t db r).length
          = if db.any (matClash r) then db.length else db.length + 1)
  ∧ (∀ (t : Nat) (db : List ProductRow) (r : ProdTuple),
        (upsertOne prodClash prodUpd prodMk t db r).length
          = if db.any (prodClash r) then db.length else db.length + 1)
  ∧ (∀ (t : Nat) (db : List ResourceRow) (r : ResTuple),
        (upsertOne resClash resUpd resMk t db r).length
          = if db.any (resClash r) then db.length else db.length + 1)
  ∧ (∀ (t : Nat) (db : List RuleRow) (r : RuleTuple),
        (upsertOne ruleClash ruleUpd ruleMk t db r).length
          = if db.any (ruleClash r) then db.length else db.length + 1) := by
  refine ⟨?_, ?_, ?_, ?_, ?_, ?_, ?_, ?_⟩
  · intro t row r
    exact ⟨rfl, rfl, rfl, rfl, rfl, rfl, rfl, rfl, rfl, rfl⟩
  · intro t row r
    exact ⟨rfl, rfl, rfl, rfl, rfl, rfl, rfl, rfl, rfl⟩
  · intro t row r
    rfl
  · intro t row r
    rfl
  · intro t db r
    exact upsertOne_length matClash matUpd matMk t db r
  · intro t db r
    exact upsertOne_length prodClash prodUpd prodMk t db r
  · intro t db r
    exact upsertOne_length resClash resUpd resMk t db r
  · intro t db r
    exact upsertOne_length ruleClash ruleUpd ruleMk t db r

/-- C4: every `bom_hierarchy` row built by `insert_bom_hierarchy` has
level 1 for the tag `L1_Market_SKU`, 2 for `L2_Assembly` and 3
otherwise — hence always in 1-3 — and a non-negative quantity equal to
`float(QTY)` when `is_valid_qty` accepts the record's QTY and exactly 0
otherwise. -/
theorem C4_bom_rows (t : Nat) (db : List BomRow) (records : List PeggingRecord)
    (row : BomRow) (hrow : row ∈ insert_bom_hierarchy t db records) :
    row ∈ db ∨ ∃ r ∈ records, row = bomRowOf t r
      ∧ (row.level = if r.BOM_Level == Value.vStr "L1_Market_SKU" then 1
          else if r.BOM_Level == Value.vStr "L2_Assembly" then 2 else 3)
      ∧ (row.level = 1 ∨ row.level = 2 ∨ row.level = 3)
      ∧ row.quantity.nonneg = true
      ∧ row.quantity
          = (if is_valid_qty r.QTY then (pyFloatOf r.QTY).getD (.rat 0) else .rat 0) := by
  rcases List.mem_append.mp hrow with h | h
  · exact Or.inl h
  · obtain ⟨r, hr, hrow⟩ := List.mem_map.mp h
    refine Or.inr ⟨r, hr, hrow.symm, ?_, ?_, ?_, ?_⟩
    · rw [← hrow]; rfl
    · rw [← hrow]
      simp only [bomRowOf]
      by_cases h1 : r.BOM_Level == Value.vStr "L1_Market_SKU"
      · simp [h1]
      · by_cases h2 : r.BOM_Level == Value.vStr "L2_Assembly" <;> simp [h1, h2]
    · rw [← hrow]
      simp only [bomRowOf]
      by_cases hq : is_valid_qty r.QTY
      · rw [if_pos hq]
        exact valid_qty_store_nonneg r.QTY hq
      · rw [if_neg hq]
        decide
    · rw [← hrow]; rfl

/-- C4 witness: a concrete `L2_Assembly` record with QTY "2.5" yields a
row at level 2 with a non-negative quantity. -/
theorem C4_bom_rows_witness :
    bomRowOf 0 ⟨.vStr "S1", .vStr "L2_Assembly", .vStr "P1", .vNone, .vStr "M1", .vNone,
        .vStr "2.5", .vNone, .vNone, .vNone, .vNone, .vNone, .vNone⟩ ∈ ([] : List BomRow)
    ∨ ∃ r ∈ [(⟨.vStr "S1", .vStr "L2_Assembly", .vStr "P1", .vNone, .vStr "M1", .vNone,
        .vStr "2.5", .vNone, .vNone, .vNone, .vNone, .vNone, .vNone⟩ : PeggingRecord)],
        bomRowOf 0 ⟨.vStr "S1", .vStr "L2_Assembly", .vStr "P1", .vNone, .vStr "M1", .vNone,
          .vStr "2.5", .vNone, .vNone, .vNone, .vNone, .vNone, .vNone⟩ = bomRowOf 0 r
      ∧ ((bomRowOf 0 ⟨.vStr "S1", .vStr "L2_Assembly", .vStr "P1", .vNone, .vStr "M1", .vNone,
          .vStr "2.5", .vNone, .vNone, .vNone, .vNone, .vNone, .vNone⟩).level
          = if r.BOM_Level == Value.vStr "L1_Market_SKU" then 1
            else if r.BOM_Level == Value.vStr "L2_Assembly" then 2 else 3)
      ∧ ((bomRowOf 0 ⟨.vStr "S1", .vStr "L2_Assembly", .vStr "P1", .vNone, .vStr "M1", .vNone,
          .vStr "2.5", .vNone, .vNone, .vNone, .vNone, .vNone, .vNone⟩).level = 1
        ∨ (bomRowOf 0 ⟨.vStr "S1", .vStr "L2_Assembly", .vStr "P1", .vNone, .vStr "M1", .vNone,
          .vStr "2.5", .vNone, .vNone, .vNone, .vNone, .vNone, .vNone⟩).level = 2
        ∨ (bomRowOf 0 ⟨.vStr "S1", .vStr "L2_Assembly", .vStr "P1", .vNone, .vStr "M1", .vNone,
          .vStr "2.5", .vNone, .vNone, .vNone, .vNone, .vNone, .vNone⟩).level = 3)
      ∧ (bomRowOf 0 ⟨.vStr "S1", .vStr "L2_Assembly", .vStr "P1", .vNone, .vStr "M1", .vNone,
          .vStr "2.5", .vNone, .vNone, .vNone, .vNone, .vNone, .vNone⟩).quantity.nonneg = true
      ∧ (bomRowOf 0 ⟨.vStr "S1", .vStr "L2_Assembly", .vStr "P1", .vNone, .vStr "M1", .vNone,
          .vStr "2.5", .vNone, .vNone, .vNone, .vNone, .vNone, .vNone⟩).quantity
          = (if is_valid_qty r.QTY then (pyFloatOf r.QTY).getD (.rat 0) else .rat 0) :=
  C4_bom_rows 0 [] _ _ (by decide)

/-- C7: SKUs absent from the caller-supplied hierarchy mapping get null
assembly/filling references and the default family; SKUs present in the
mapping get the mapping's ids.  Every `sku_data` entry yields exactly
one tuple. -/
theorem C7_sku_mapping_refs (hierarchy_mapping : List (String × MapEntry))
    (p : String × SkuInfo) :
    (hierarchy_mapping.lookup p.1 = none →
        (skuTupleOf hierarchy_mapping p).assembly_product_id = none
      ∧ (skuTupleOf hierarchy_mapping p).filling_product_id = none
      ∧ (skuTupleOf hierarchy_mapping p).product_family = "N/A")
    ∧ (∀ m, hierarchy_mapping.lookup p.1 = some m →
        (skuTupleOf hierarchy_mapping p).assembly_product_id = some m.assembly
      ∧ (skuTupleOf hierarchy_mapping p).filling_product_id = some m.filling
      ∧ (skuTupleOf hierarchy_mapping p).product_family = m.family)
    ∧ (∀ sku_data : List (String × SkuInfo),
        (sku_data.map (skuTupleOf hierarchy_mapping)).length = sku_data.length) := by
  refine ⟨fun h => ?_, fun m h => ?_, fun sku_data => ?_⟩
  · exact ⟨by simp [skuTupleOf, h], by simp [skuTupleOf, h], by simp [skuTupleOf, h]⟩
  · exact ⟨by simp [skuTupleOf, h], by simp [skuTupleOf, h], by simp [skuTupleOf, h]⟩
  · simp

/-- C7 witness: with the source's first mapping entry, an unmapped SKU
gets null references and default family; the mapped SKU gets the
mapping's product ids. -/
theorem C7_sku_mapping_refs_witness :
    ((skuTupleOf [("800004403", ⟨"700003964", "700001012", "Glargine_mCB_DLP"⟩)]
        ("X9", ⟨none, none, .vNone⟩)).assembly_product_id = none
    ∧ (skuTupleOf [("800004403", ⟨"700003964", "700001012", "Glargine_mCB_DLP"⟩)]
        ("X9", ⟨none, none, .vNone⟩)).filling_product_id = none
    ∧ (skuTupleOf [("800004403", ⟨"700003964", "700001012", "Glargine_mCB_DLP"⟩)]
        ("X9", ⟨none, none, .vNone⟩)).product_family = "N/A")
    ∧ ((skuTupleOf [("800004403", ⟨"700003964", "700001012", "Glargine_mCB_DLP"⟩)]
        ("800004403", ⟨none, none, .vNone⟩)).assembly_product_id = some "700003964"
    ∧ (skuTupleOf [("800004403", ⟨"700003964", "700001012", "Glargine_mCB_DLP"⟩)]
        ("800004403", ⟨none, none, .vNone⟩)).filling_product_id = some "700001012"
    ∧ (skuTupleOf [("800004403", ⟨"700003964", "700001012", "Glargine_mCB_DLP"⟩)]
        ("800004403", ⟨none, none, .vNone⟩)).product_family = "Glargine_mCB_DLP") :=
  ⟨(C7_sku_mapping_refs [("800004403", ⟨"700003964", "700001012", "Glargine_mCB_DLP"⟩)]
      ("X9", ⟨none, none, .vNone⟩)).1 (by decide),
   (C7_sku_mapping_refs [("800004403", ⟨"700003964", "700001012", "Glargine_mCB_DLP"⟩)]
      ("800004403", ⟨none, none, .vNone⟩)).2.1
      ⟨"700003964", "700001012", "Glargine_mCB_DLP"⟩ (by decide)⟩

/-- C8: `is_valid_qty` agrees with the spec's characterisation on every
input, and on the four quoted examples. -/
theorem C8_is_valid_qty_iff :
    (∀ v, is_valid_qty v = specValidQty v)
    ∧ is_valid_qty (.vStr "0") = false
    ∧ is_valid_qty (.vStr "-5") = false
    ∧ is_valid_qty (.vStr "3.5") = true
    ∧ is_valid_qty .vNone = false := by
  refine ⟨?_, by decide, by decide, by decide, by decide⟩
  intro v
  cases v with
  | vNone => decide
  | vNaN => decide
  | vStr s =>
    obtain ⟨l⟩ := s
    unfold is_valid_qty specValidQty
    simp only [pdIsna, Bool.false_eq_true, if_false]
    rw [show pyFloatOf (.vStr ⟨l⟩) = pyFloatParse (String.mk (stripList l)) from
      (pyFloatParse_strip l).symm]
    by_cases hA : (stripList (pyStr (.vStr ⟨l⟩)).data).isEmpty
    · simp [pyStr] at hA ⊢
      simp [hA]
    · by_cases hB : stripList (pyStr (.vStr ⟨l⟩)).data = ['0']
      · simp [pyStr] at hB ⊢
        simp [hB]
      · by_cases hC : stripList (pyStr (.vStr ⟨l⟩)).data = "nan".data
        · simp [pyStr] at hC ⊢
          simp [hC]
        · simp [pyStr] at hA hB hC ⊢
          simp [hA, hB, hC]

/-- C9: `normalize_product_no` returns `None` exactly when the input is
null/NaN or no ASCII letter or digit remains, and otherwise a non-empty
string of ASCII letters and digits only; on `" AB-12_34 "` it returns
`"AB1234"`. -/
theorem C9_normalize_product_no :
    (∀ v, normalize_product_no v = none
        ↔ (pdIsna v = true ∨ (stripList (pyStr v).data).filter Char.isAlphanum = []))
    ∧ (∀ v s, normalize_product_no v = some s →
        s ≠ "" ∧ s.data.all Char.isAlphanum = true)
    ∧ normalize_product_no (.vStr " AB-12_34 ") = some "AB1234" := by
  refine ⟨?_, ?_, by decide⟩
  · intro v
    unfold normalize_product_no
    by_cases h : pdIsna v
    · simp [h]
    · simp only [h, Bool.false_eq_true, if_false]
      by_cases he : ((stripList (pyStr v).data).filter Char.isAlphanum).isEmpty
      · simp [he, List.isEmpty_iff.mp he, h]
      · simp only [he, Bool.false_eq_true, if_false]
        refine ⟨fun hcontra => absurd hcontra (Option.some_ne_none _), ?_⟩
        rintro (hc | hc)
        · exact hc.elim
        · exact absurd (List.isEmpty_iff.mpr hc) he

  · intro v s hs
    unfold normalize_product_no at hs
    by_cases h : pdIsna v
    · simp [h] at hs
    · simp only [h, Bool.false_eq_true, if_false] at hs
      by_cases he : ((stripList (pyStr v).data).filter Char.isAlphanum).isEmpty
      · simp [he] at hs
      · simp only [he, Bool.false_eq_true, if_false, Option.some.injEq] at hs
        subst hs
        constructor
        · intro hempty
          have : ((stripList (pyStr v).data).filter Char.isAlphanum) = [] := by
            have := congrArg String.data hempty
            simpa using this
          exact he (List.isEmpty_iff.mpr this)
        · rw [List.all_eq_true]
          intro c hc
          exact (List.mem_filter.mp hc).2

/-- C9 witness: the quoted example, through the theorem. -/
theorem C9_normalize_product_no_witness :
    ("AB1234" : String) ≠ "" ∧ "AB1234".data.all Char.isAlphanum = true :=
  C9_normalize_product_no.2.1 (.vStr " AB-12_34 ") "AB1234" (by decide)

theorem headerKey_eq_some (c : HeaderCol) (pid : String) :
    headerKey c = some pid ↔ (normalize_product_no c.idCell = some pid ∧ pid ≠ "0") := by
  unfold headerKey
  cases hn : normalize_product_no c.idCell with
  | none => simp
  | some q =>
    rw [Option.some_bind]
    by_cases hq : q = "0"
    · subst hq
      simp only [if_pos rfl]
      constructor
      · intro hcontra
        exact absurd hcontra (Option.noConfusion)
      · rintro ⟨h1, h2⟩
        exact absurd (Option.some.inj h1).symm h2
    · rw [if_neg hq]
      constructor
      · intro h1
        exact ⟨h1, fun hp => hq ((Option.some.inj h1).trans hp)⟩
      · rintro ⟨h1, _⟩
        exact h1

/-- C2 counterexample: a SKU-sheet row whose identifier normalizes to
the literal string "0" is kept by extraction (the claim says every band
drops it). -/
theorem C2_counterexample :
    normalize_product_no (.vStr "0") = some "0"
    ∧ (load_excel_data [] [] [⟨.vStr "0", .vStr "SKU-A", .vStr "India", .vStr "5"⟩] []).skuData.lookup "0"
        = some ⟨some "SKU-A", some "India", .vStr "5"⟩ := by
  constructor
  · decide
  · decide

/-- C2 (amended): extraction drops a row exactly when its normalized
identifier is absent — and additionally, for the product header band and
the materials band only, when it is the literal "0"; the SKU and
resource sheets keep rows with identifier "0".  (Duplicate identifiers
are deduplicated, not dropped: first-wins for the SKU sheet, last-wins
elsewhere — see C10.) -/
theorem C2_amended_extraction_filter
    (headerCols : List HeaderCol) (matRows : List MatRawRow)
    (advRows : List AdvRow) (resRows : List ResRow) :
    (∀ pid, (((load_excel_data headerCols matRows advRows resRows).headers.lookup pid).isSome = true
        ↔ ∃ c ∈ headerCols, normalize_product_no c.idCell = some pid ∧ pid ≠ "0"))
    ∧ (∀ r n, ((r, n) ∈ (load_excel_data headerCols matRows advRows resRows).materials
        ↔ r ∈ matRows ∧ normalize_product_no r.Material = some n ∧ n ≠ "0"))
    ∧ (∀ pid, (((load_excel_data headerCols matRows advRows resRows).skuData.lookup pid).isSome = true
        ↔ ∃ r ∈ advRows, normalize_product_no r.Product_ID = some pid))
    ∧ (∀ pid, (((load_excel_data headerCols matRows advRows resRows).resourceData.lookup pid).isSome = true
        ↔ ∃ r ∈ resRows, normalize_product_no r.Product_ID = some pid)) := by
  refine ⟨?_, ?_, ?_, ?_⟩
  · intro pid
    show ((buildDict headerKey headerVal false headerCols []).lookup pid).isSome = true ↔ _
    rw [buildDict_lookup_last]
    simp only [List.lookup_nil, Option.or_none, Option.isSome_map']
    rw [List.find?_isSome]
    constructor
    · rintro ⟨c, hc, hp⟩
      exact ⟨c, List.mem_reverse.mp hc, (headerKey_eq_some c pid).mp (by simpa using hp)⟩
    · rintro ⟨c, hc, hp⟩
      exact ⟨c, List.mem_reverse.mpr hc, by simp [(headerKey_eq_some c pid).mpr hp]⟩
  · intro r n
    show (r, n) ∈ matRows.filterMap _ ↔ _
    rw [List.mem_filterMap]
    constructor
    · rintro ⟨a, ha, hf⟩
      cases hm : normalize_product_no a.Material with
      | none => rw [hm, Option.none_bind] at hf; exact absurd hf (by simp)
      | some m =>
        rw [hm, Option.some_bind] at hf
        by_cases hq : m = "0"
        · rw [if_pos hq] at hf
          exact absurd hf (by simp)
        · rw [if_neg hq] at hf
          obtain ⟨ha1, ha2⟩ := Prod.mk.inj (Option.some.inj hf)
          subst ha1; subst ha2
          exact ⟨ha, hm, hq⟩
    · rintro ⟨ha, hm, hn⟩
      refine ⟨r, ha, ?_⟩
      rw [hm, Option.some_bind, if_neg hn]
  · intro pid
    show ((buildDict (fun r => normalize_product_no r.Product_ID) skuInfoOf true advRows []).lookup
        pid).isSome = true ↔ _
    rw [buildDict_lookup_first]
    simp only [List.lookup_nil, Option.none_or, Option.isSome_map']
    rw [List.find?_isSome]
    constructor
    · rintro ⟨r, hr, hp⟩
      exact ⟨r, hr, by simpa using hp⟩
    · rintro ⟨r, hr, hp⟩
      exact ⟨r, hr, by simp [hp]⟩
  · intro pid
    show ((buildDict (fun r => normalize_product_no r.Product_ID) resInfoOf false resRows []).lookup
        pid).isSome = true ↔ _
    rw [buildDict_lookup_last]
    simp only [List.lookup_nil, Option.or_none, Option.isSome_map']
    rw [List.find?_isSome]
    constructor
    · rintro ⟨r, hr, hp⟩
      exact ⟨r, List.mem_reverse.mp hr, by simpa using hp⟩
    · rintro ⟨r, hr, hp⟩
      exact ⟨r, List.mem_reverse.mpr hr, by simp [hp]⟩

/-- C10: when several SKU-sheet rows normalize to the same product id
the first row's data is kept (later ones are ignored), while for the
resource sheet the last row's data wins (earlier ones are
overwritten). -/
theorem C10_dedup_first_vs_last (advRows : List AdvRow) (resRows : List ResRow)
    (pid : String) :
    (buildSkuData advRows).lookup pid
        = (advRows.find? (fun r => normalize_product_no r.Product_ID == some pid)).map skuInfoOf
    ∧ (buildResourceData resRows).lookup pid
        = (resRows.reverse.find? (fun r => normalize_product_no r.Product_ID == some pid)).map
            resInfoOf := by
  constructor
  · show (buildDict (fun r => normalize_product_no r.Product_ID) skuInfoOf true advRows []).lookup
        pid = _
    rw [buildDict_lookup_first]
    simp
  · show (buildDict (fun r => normalize_product_no r.Product_ID) resInfoOf false resRows []).lookup
        pid = _
    rw [buildDict_lookup_last]
    simp

/-- C5 counterexample: when the materials batch insert fails, the error
log line does not contain the failing query text (`executemany_query`
logs only `f"Batch Insert Error: {e}"`, unlike `execute_query`). -/
theorem C5_counterexample :
    (executemany_query materialsInsertQuery (.err "Duplicate entry")).1 = 0
    ∧ logsContainQuery (executemany_query materialsInsertQuery (.err "Duplicate entry")).2
        materialsInsertQuery = false := by
  constructor
  · rfl
  · decide

/-- C5 (amended): a failed batch insert is reported (message and error
only, without the failing query text), returns zero rows written, and
the run continues through all five entity batches and still returns
success. -/
theorem C5_amended_batch_error (q e : String) (env : RunEnv)
    (h1 : env.loadRaises = none) (h2 : env.connectOk = true)
    (h3 : env.createTablesOk = true) (h4 : env.step4Raises = none) :
    executemany_query q (.err e) = (0, [⟨"ERROR", "Batch Insert Error: " ++ e⟩])
    ∧ (runMain env).batchesRun = ["materials", "products", "skus", "resources", "routing_rules"]
    ∧ (runMain env).retVal = some true := by
  refine ⟨rfl, ?_, ?_⟩ <;> simp [runMain, h1, h2, h3, h4]

/-- C5 witness: a run whose materials batch fails with "Duplicate
entry" while everything else succeeds. -/
theorem C5_amended_batch_error_witness :
    executemany_query materialsInsertQuery (.err "Duplicate entry")
        = (0, [⟨"ERROR", "Batch Insert Error: " ++ "Duplicate entry"⟩])
    ∧ (runMain ⟨none, true, true, none, .err "Duplicate entry", .ok 3, .ok 3, .ok 3, .ok 3⟩).batchesRun
        = ["materials", "products", "skus", "resources", "routing_rules"]
    ∧ (runMain ⟨none, true, true, none, .err "Duplicate entry", .ok 3, .ok 3, .ok 3, .ok 3⟩).retVal
        = some true :=
  C5_amended_batch_error materialsInsertQuery "Duplicate entry"
    ⟨none, true, true, none, .err "Duplicate entry", .ok 3, .ok 3, .ok 3, .ok 3⟩
    rfl rfl rfl rfl

/-- C6: evaluation of `main` at the failing input.  When
`load_excel_data` raises (before the connector is bound), the handler
logs the trace but then crashes on the unbound `connector` local:
rollback and close are never performed and the exception escapes `main`;
the process still exits non-zero, via the unhandled `UnboundLocalError`
rather than the handled `exit(1)` path.  After the connector exists, and
on full success, the claim's behaviour holds. -/
theorem C6_fatal_error_handler :
    (runMain ⟨some "FileNotFoundError", true, true, none, .ok 0, .ok 0, .ok 0, .ok 0, .ok 0⟩).loggedTrace = true
    ∧ (runMain ⟨some "FileNotFoundError", true, true, none, .ok 0, .ok 0, .ok 0, .ok 0, .ok 0⟩).rollbackCalled = false
    ∧ (runMain ⟨some "FileNotFoundError", true, true, none, .ok 0, .ok 0, .ok 0, .ok 0, .ok 0⟩).closeCalled = false
    ∧ (runMain ⟨some "FileNotFoundError", true, true, none, .ok 0, .ok 0, .ok 0, .ok 0, .ok 0⟩).uncaught
        = some "UnboundLocalError: local variable connector referenced before assignment"
    ∧ processExitCode ⟨some "FileNotFoundError", true, true, none, .ok 0, .ok 0, .ok 0, .ok 0, .ok 0⟩ = 1
    ∧ (runMain ⟨none, true, true, some "TypeError", .ok 0, .ok 0, .ok 0, .ok 0, .ok 0⟩).loggedTrace = true
    ∧ (runMain ⟨none, true, true, some "TypeError", .ok 0, .ok 0, .ok 0, .ok 0, .ok 0⟩).rollbackCalled = true
    ∧ (runMain ⟨none, true, true, some "TypeError", .ok 0, .ok 0, .ok 0, .ok 0, .ok 0⟩).closeCalled = true
    ∧ processExitCode ⟨none, true, true, some "TypeError", .ok 0, .ok 0, .ok 0, .ok 0, .ok 0⟩ = 1
    ∧ (runMain ⟨none, true, true, none, .ok 1, .ok 1, .ok 1, .ok 1, .ok 1⟩).retVal = some true
    ∧ processExitCode ⟨none, true, true, none, .ok 1, .ok 1, .ok 1, .ok 1, .ok 1⟩ = 0 := by
  decide

example : is_valid_qty (.vStr "3.5") = true := by decide
example : is_valid_qty (.vStr "0") = false := by decide
example : is_valid_qty (.vStr "-5") = false := by decide
example : is_valid_qty .vNone = false := by decide
example : is_valid_qty (.vStr " 2e3 ") = true := by decide
example : normalize_product_no (.vStr " AB-12_34 ") = some "AB1234" := by decide
example : extract_model_components (.vStr "A__B___C_") = some "A_B_C" := by decide
example : normalize_text (.vStr "  a   b ") = some "a b" := by decide

end Repogen
